import Mathlib

/-
Verification of the troggle-backend existence-check handler
(src/checkUserExists/main.go, two variants: a gateway-proxy handler and a
direct-return handler) against its natural-language specification.

The Go program is shallowly embedded: every function becomes a pure Lean
function.  Effects are made explicit:
  - the AWS environment (config loading and the DynamoDB endpoint) is a
    record of result-valued functions passed to the handler;
  - every DynamoDB call the code performs is recorded in a trace of
    StoreOp values returned alongside the result, so that claims about
    which calls are issued (how many, against which table and index,
    reads only) are statements about that trace;
  - Go error values are modelled as String messages, a returned
    Go error as Option String (none = nil error).
JSON payloads are represented by the outcome of syntactic parsing: an
Option Json value, none meaning the payload is not syntactically valid
JSON.  The byte-level parser and the field decoding live in the external
Go library encoding/json; its documented contract (godoc of Unmarshal) is
embedded in unmarshalRequest below.
-/

namespace Troggle

/-- A JSON value, as produced by a syntactically successful parse. -/
inductive Json where
  | null
  | bool (b : Bool)
  | num (n : Int)
  | str (s : String)
  | arr (elems : List Json)
  | obj (fields : List (String × Json))

/-- Request represents the JSON input (Go struct with one field,
Email string, json tag email). -/
structure Request where
  email : String
deriving DecidableEq, Repr

/-- DynamoDB attribute value; the code only ever builds the string
member (types.AttributeValueMemberS). -/
inductive AttributeValue where
  | S (value : String)
deriving DecidableEq, Repr

/-- The fields of dynamodb.QueryInput that the code sets. -/
structure QueryInput where
  tableName : String
  indexName : String
  keyConditionExpression : String
  expressionAttributeValues : List (String × AttributeValue)
deriving DecidableEq, Repr

/-- The fields of dynamodb.QueryOutput the contract exposes: the page of
items (each item a map from attribute name to value) and the paging
marker telling whether more results are available (ignored by the code). -/
structure QueryOutput where
  items : List (List (String × AttributeValue))
  lastEvaluatedKey : Option (List (String × AttributeValue))
deriving DecidableEq, Repr

/-- An operation against the table store.  The DynamoDB client offers
reads and writes; the trace records which the code actually performs. -/
inductive StoreOp where
  | queryOp (input : QueryInput)
  | putItemOp (tableName : String) (item : List (String × AttributeValue))
  | deleteItemOp (tableName : String) (key : List (String × AttributeValue))
deriving DecidableEq, Repr

/-- A store operation is a read when it cannot modify the store. -/
def StoreOp.isRead : StoreOp → Bool
  | .queryOp _ => true
  | .putItemOp _ _ => false
  | .deleteItemOp _ _ => false

/-- Whether a store operation is a query against the fixed table
troggle_user through the fixed index email-index. -/
def StoreOp.targetsFixedTable : StoreOp → Bool
  | .queryOp q => q.tableName == "troggle_user" && q.indexName == "email-index"
  | .putItemOp _ _ => false
  | .deleteItemOp _ _ => false

/-- A store state: table name to the list of items it holds.  Used to
express that an invocation leaves every store unchanged. -/
def StoreState : Type := List (String × List (List (String × AttributeValue)))

/-- Effect of one store operation on a store state: queries change
nothing, writes do. -/
def applyStoreOp (st : StoreState) : StoreOp → StoreState
  | .queryOp _ => st
  | .putItemOp t item => (t, [item]) :: st
  | .deleteItemOp t _ => st.filter (fun p => p.1 != t)

/-- The DynamoDB client handle produced by dynamodb.NewFromConfig: its
Query method is a result-valued function (ok page or error message). -/
structure Client where
  query : QueryInput → Except String QueryOutput

/-- The resolved AWS configuration (region, credentials); opaque to the
handler, which only threads it into the client constructor. -/
structure AwsConfig where
  region : String
deriving DecidableEq, Repr

/-- The ambient AWS environment of one invocation: the outcome of
config.LoadDefaultConfig and the behaviour of the DynamoDB endpoint. -/
structure AwsEnv where
  loadDefaultConfig : Except String AwsConfig
  dynamo : QueryInput → Except String QueryOutput

/-- One step of decoding the email field from the fields of a JSON
object, per the documented contract of encoding/json Unmarshal: keys are
processed in order, a later binding overwrites an earlier one, a string
value is stored, a null value has no effect and produces no error, any
other value for the field is a type error (recorded, decoding goes on),
and unknown keys are ignored.  State: (current email value, error seen). -/
def decodeFieldStep (acc : String × Bool) (kv : String × Json) : String × Bool :=
  if kv.1 = "email" then
    match kv.2 with
    | Json.str s => (s, acc.2)
    | Json.null => acc
    | _ => (acc.1, true)
  else acc

/-- json.Unmarshal of the payload into the Request struct, embedded from
the documented contract of encoding/json: a syntactically invalid payload
is a syntax error; a top-level null has no effect on the struct and
produces no error (godoc: unmarshaling a JSON null into any other Go type
has no effect on the value and produces no error); a top-level object is
decoded field by field; any other top-level value is a type error. -/
def unmarshalRequest : Option Json → Except String Request
  | none => Except.error "invalid character in JSON input"
  | some Json.null => Except.ok { email := "" }
  | some (Json.obj fields) =>
    let st := fields.foldl decodeFieldStep ("", false)
    if st.2 then
      Except.error "json: cannot unmarshal value into field email of type string"
    else
      Except.ok { email := st.1 }
  | some _ => Except.error "json: cannot unmarshal value into Go value of type Request"

/-- The query input UserExists builds for an email and table: the fixed
index email-index and an equality condition on the email attribute. -/
def emailQueryInput (email : String) (tableName : String) : QueryInput :=
  { tableName := tableName
    indexName := "email-index"
    keyConditionExpression := "email = :email"
    expressionAttributeValues := [(":email", AttributeValue.S email)] }

end Troggle

namespace Troggle.Gateway

/-- Response of the gateway-proxy variant (events.APIGatewayProxyResponse,
only the fields the code sets). -/
structure APIGatewayProxyResponse where
  statusCode : Nat
  body : String
deriving DecidableEq, Repr

/-- UserExists of the gateway-proxy variant: builds one query against the
email-index of the given table, issues it, and reduces the outcome to a
boolean; a store error becomes false.  Returns the result together with
the trace of store operations performed. -/
def UserExists (email : String) (db : Client) (tableName : String) :
    Bool × List StoreOp :=
  let indexName := "email-index"
  let input : QueryInput :=
    { tableName := tableName
      indexName := indexName
      keyConditionExpression := "email = :email"
      expressionAttributeValues := [(":email", AttributeValue.S email)] }
  match db.query input with
  | Except.error _ => (false, [StoreOp.queryOp input])
  | Except.ok result =>
    if result.items.length > 0 then
      (true, [StoreOp.queryOp input])
    else
      (false, [StoreOp.queryOp input])

/-- json.Marshal of the gateway-variant Response struct (one field,
Exists bool, json tag exists); total and deterministic. -/
def marshalResponse (b : Bool) : String :=
  if b then "\x7b\"exists\":true\x7d" else "\x7b\"exists\":false\x7d"

/-- The gateway-proxy handler: decode the body, load the AWS config,
build the client, probe existence against the fixed table troggle_user,
encode.  Returns (response, returned Go error, store-operation trace). -/
def handler (env : AwsEnv) (eventBody : Option Json) :
    APIGatewayProxyResponse × Option String × List StoreOp :=
  match unmarshalRequest eventBody with
  | Except.error _ =>
    ({ statusCode := 400, body := "Invalid request" }, none, [])
  | Except.ok req =>
    match env.loadDefaultConfig with
    | Except.error _ =>
      ({ statusCode := 500, body := "Server error" }, none, [])
    | Except.ok _cfg =>
      let db : Client := { query := env.dynamo }
      let r := UserExists req.email db "troggle_user"
      ({ statusCode := 200, body := marshalResponse r.1 }, none, r.2)

end Troggle.Gateway

namespace Troggle.Direct

/-- Response of the direct-return variant: statusCode, exists flag and a
human-readable message. -/
structure Response where
  statusCode : Nat
  «exists» : Bool
  message : String
deriving DecidableEq, Repr

/-- UserExists of the direct-return variant: same single query as the
gateway variant, returning the boolean together with one of the two
fixed message literals; a store error yields the not-exists pair.
Returns the result together with the trace of store operations. -/
def UserExists (email : String) (db : Client) (tableName : String) :
    (Bool × String) × List StoreOp :=
  let existsMsg := "User exists"
  let notExistsMsg := "User does not exist"
  let indexName := "email-index"
  let input : QueryInput :=
    { tableName := tableName
      indexName := indexName
      keyConditionExpression := "email = :email"
      expressionAttributeValues := [(":email", AttributeValue.S email)] }
  match db.query input with
  | Except.error _ => ((false, notExistsMsg), [StoreOp.queryOp input])
  | Except.ok result =>
    if result.items.length > 0 then
      ((true, existsMsg), [StoreOp.queryOp input])
    else
      ((false, notExistsMsg), [StoreOp.queryOp input])

/-- The direct-return handler: decode the raw payload, load the AWS
config, build the client, probe existence against the fixed table
troggle_user.  On decode or config failure it returns the 400/500
response TOGETHER WITH the non-nil error (the Go code returns err, not
nil, in those two branches).  Returns (response, returned Go error,
store-operation trace). -/
def handler (env : AwsEnv) (payload : Option Json) :
    Response × Option String × List StoreOp :=
  match unmarshalRequest payload with
  | Except.error e =>
    ({ statusCode := 400, «exists» := false, message := "Invalid request" }, some e, [])
  | Except.ok req =>
    match env.loadDefaultConfig with
    | Except.error e =>
      ({ statusCode := 500, «exists» := false, message := "Server error" }, some e, [])
    | Except.ok _cfg =>
      let db : Client := { query := env.dynamo }
      let r := UserExists req.email db "troggle_user"
      ({ statusCode := 200, «exists» := r.1.1, message := r.1.2 }, none, r.2)

end Troggle.Direct

namespace Troggle

/-- Concrete fixture: a one-item result page. -/
def pageWithItem : QueryOutput :=
  { items := [[("email", AttributeValue.S "alice@example.com")]]
    lastEvaluatedKey := none }

/-- Concrete fixture: an empty result page. -/
def emptyPage : QueryOutput :=
  { items := [], lastEvaluatedKey := none }

/-- Concrete fixture: a two-item page whose paging marker says more
results are available (the code must still issue a single query). -/
def pagedPage : QueryOutput :=
  { items := [[("email", AttributeValue.S "alice@example.com")],
              [("email", AttributeValue.S "alice@example.com")]]
    lastEvaluatedKey := some [("email", AttributeValue.S "alice@example.com")] }

/-- Concrete fixture: a client whose store answers every query with the
given page. -/
def clientOf (out : QueryOutput) : Client :=
  { query := fun _ => Except.ok out }

/-- Concrete fixture: a client whose store fails every query. -/
def clientFail : Client :=
  { query := fun _ => Except.error "connection timeout" }

/-- Concrete fixture: environment with working config whose store
answers every query with the given page. -/
def envOk (out : QueryOutput) : AwsEnv :=
  { loadDefaultConfig := Except.ok { region := "us-east-1" }
    dynamo := fun _ => Except.ok out }

/-- Concrete fixture: environment with working config whose store fails
every query. -/
def envQueryFail : AwsEnv :=
  { loadDefaultConfig := Except.ok { region := "us-east-1" }
    dynamo := fun _ => Except.error "connection timeout" }

/-- Concrete fixture: environment where config loading fails. -/
def envConfigFail : AwsEnv :=
  { loadDefaultConfig := Except.error "no credential providers"
    dynamo := fun _ => Except.ok emptyPage }

/-- Concrete fixture: a well-formed payload carrying an email. -/
def alicePayload : Option Json :=
  some (Json.obj [("email", Json.str "alice@example.com")])

/-- The gateway-variant prober always performs exactly one store
operation: the query for the given email against the email-index of the
given table. -/
theorem gateway_userExists_trace (email : String) (db : Client) (tableName : String) :
    (Gateway.UserExists email db tableName).2 =
      [StoreOp.queryOp (emailQueryInput email tableName)] := by
  unfold Gateway.UserExists
  cases hq : db.query (emailQueryInput email tableName) with
  | error e =>
    simp only [emailQueryInput] at hq
    simp [hq, emailQueryInput]
  | ok result =>
    simp only [emailQueryInput] at hq
    simp only [hq]
    split <;> simp [emailQueryInput]

/-- The direct-variant prober always performs exactly one store
operation: the query for the given email against the email-index of the
given table. -/
theorem direct_userExists_trace (email : String) (db : Client) (tableName : String) :
    (Direct.UserExists email db tableName).2 =
      [StoreOp.queryOp (emailQueryInput email tableName)] := by
  unfold Direct.UserExists
  cases hq : db.query (emailQueryInput email tableName) with
  | error e =>
    simp only [emailQueryInput] at hq
    simp [hq, emailQueryInput]
  | ok result =>
    simp only [emailQueryInput] at hq
    simp only [hq]
    split <;> simp [emailQueryInput]

/-- The trace of a gateway-handler invocation is either empty or a
single query for the decoded email against the fixed table. -/
theorem gateway_handler_trace (env : AwsEnv) (payload : Option Json) :
    (Gateway.handler env payload).2.2 = [] ∨
    ∃ email, (Gateway.handler env payload).2.2 =
      [StoreOp.queryOp (emailQueryInput email "troggle_user")] := by
  unfold Gateway.handler
  cases hdec : unmarshalRequest payload with
  | error e => simp
  | ok req =>
    cases hcfg : env.loadDefaultConfig with
    | error e => simp
    | ok cfg =>
      right
      exact ⟨req.email, by simp [gateway_userExists_trace]⟩

/-- The trace of a direct-handler invocation is either empty or a
single query for the decoded email against the fixed table. -/
theorem direct_handler_trace (env : AwsEnv) (payload : Option Json) :
    (Direct.handler env payload).2.2 = [] ∨
    ∃ email, (Direct.handler env payload).2.2 =
      [StoreOp.queryOp (emailQueryInput email "troggle_user")] := by
  unfold Direct.handler
  cases hdec : unmarshalRequest payload with
  | error e => simp
  | ok req =>
    cases hcfg : env.loadDefaultConfig with
    | error e => simp
    | ok cfg =>
      right
      exact ⟨req.email, by simp [direct_userExists_trace]⟩

/-- C1: for every email and every execution in which the store query
fails, UserExists returns false, and the handler still returns a
response with statusCode 200 and exists false (in both variants), with
a nil error; a store failure is indistinguishable from a genuine
not-found at the boundary. -/
theorem store_failure_masked_as_not_found
    (env : AwsEnv) (payload : Option Json) (req : Request) (err : String)
    (cfg : AwsConfig)
    (hdec : unmarshalRequest payload = Except.ok req)
    (hcfg : env.loadDefaultConfig = Except.ok cfg)
    (hq : env.dynamo (emailQueryInput req.email "troggle_user") = Except.error err) :
    (Gateway.UserExists req.email { query := env.dynamo } "troggle_user").1 = false ∧
    (Gateway.handler env payload).1 =
      { statusCode := 200, body := Gateway.marshalResponse false } ∧
    (Gateway.handler env payload).2.1 = none ∧
    (Direct.UserExists req.email { query := env.dynamo } "troggle_user").1 =
      (false, "User does not exist") ∧
    (Direct.handler env payload).1 =
      { statusCode := 200, «exists» := false, message := "User does not exist" } ∧
    (Direct.handler env payload).2.1 = none := by
  simp only [emailQueryInput] at hq
  refine ⟨?_, ?_, ?_, ?_, ?_, ?_⟩ <;>
    simp [Gateway.UserExists, Gateway.handler, Direct.UserExists, Direct.handler,
      hdec, hcfg, hq]

/-- Witness for C1 at a concrete failing store. -/
theorem store_failure_masked_as_not_found_witness :
    unmarshalRequest alicePayload = Except.ok { email := "alice@example.com" } ∧
    envQueryFail.loadDefaultConfig = Except.ok { region := "us-east-1" } ∧
    envQueryFail.dynamo (emailQueryInput "alice@example.com" "troggle_user") =
      Except.error "connection timeout" ∧
    ((Gateway.UserExists "alice@example.com" { query := envQueryFail.dynamo }
        "troggle_user").1 = false ∧
     (Gateway.handler envQueryFail alicePayload).1 =
       { statusCode := 200, body := Gateway.marshalResponse false } ∧
     (Gateway.handler envQueryFail alicePayload).2.1 = none ∧
     (Direct.UserExists "alice@example.com" { query := envQueryFail.dynamo }
        "troggle_user").1 = (false, "User does not exist") ∧
     (Direct.handler envQueryFail alicePayload).1 =
       { statusCode := 200, «exists» := false, message := "User does not exist" } ∧
     (Direct.handler envQueryFail alicePayload).2.1 = none) :=
  ⟨rfl, rfl, rfl,
   store_failure_masked_as_not_found envQueryFail alicePayload
     { email := "alice@example.com" } "connection timeout" { region := "us-east-1" }
     rfl rfl rfl⟩

/-- C4: for every email and every successful store query, the prober
returns exists true exactly when the single returned page holds more
than zero items, and in every case it performs exactly one query call
(no pagination, no retry), even when the paging marker says more
results exist. -/
theorem exists_iff_first_page_nonempty
    (email tableName : String) (db : Client) (out : QueryOutput)
    (h : db.query (emailQueryInput email tableName) = Except.ok out) :
    ((Gateway.UserExists email db tableName).1 = true ↔ 0 < out.items.length) ∧
    (Gateway.UserExists email db tableName).2 =
      [StoreOp.queryOp (emailQueryInput email tableName)] ∧
    ((Direct.UserExists email db tableName).1.1 = true ↔ 0 < out.items.length) ∧
    (Direct.UserExists email db tableName).2 =
      [StoreOp.queryOp (emailQueryInput email tableName)] := by
  have h' := h
  simp only [emailQueryInput] at h'
  refine ⟨?_, gateway_userExists_trace email db tableName, ?_,
    direct_userExists_trace email db tableName⟩ <;>
  · simp only [Gateway.UserExists, Direct.UserExists, h']
    by_cases h0 : 0 < out.items.length <;> simp [h0]

/-- Witness for C4 at a concrete two-item page with a paging marker. -/
theorem exists_iff_first_page_nonempty_witness :
    (clientOf pagedPage).query (emailQueryInput "alice@example.com" "troggle_user") =
      Except.ok pagedPage ∧
    (((Gateway.UserExists "alice@example.com" (clientOf pagedPage) "troggle_user").1 = true ↔
        0 < pagedPage.items.length) ∧
     (Gateway.UserExists "alice@example.com" (clientOf pagedPage) "troggle_user").2 =
       [StoreOp.queryOp (emailQueryInput "alice@example.com" "troggle_user")] ∧
     ((Direct.UserExists "alice@example.com" (clientOf pagedPage) "troggle_user").1.1 = true ↔
        0 < pagedPage.items.length) ∧
     (Direct.UserExists "alice@example.com" (clientOf pagedPage) "troggle_user").2 =
       [StoreOp.queryOp (emailQueryInput "alice@example.com" "troggle_user")]) :=
  ⟨rfl, exists_iff_first_page_nonempty "alice@example.com" "troggle_user"
    (clientOf pagedPage) pagedPage rfl⟩

/-- C10: in the direct-return variant, when the store query fails the
prober returns the pair false with message User does not exist, and
that pair is byte-for-byte equal to the result of a genuine zero-match
query. -/
theorem direct_store_failure_result_equals_genuine_absence
    (email tableName : String) (db1 db2 : Client) (e : String) (out : QueryOutput)
    (h1 : db1.query (emailQueryInput email tableName) = Except.error e)
    (h2 : db2.query (emailQueryInput email tableName) = Except.ok out)
    (h3 : out.items = []) :
    (Direct.UserExists email db1 tableName).1 = (false, "User does not exist") ∧
    (Direct.UserExists email db2 tableName).1 = (false, "User does not exist") ∧
    (Direct.UserExists email db1 tableName).1 =
      (Direct.UserExists email db2 tableName).1 := by
  simp only [emailQueryInput] at h1 h2
  refine ⟨?_, ?_, ?_⟩ <;> simp [Direct.UserExists, h1, h2, h3]

/-- Witness for C10 at a concrete failing store and a concrete empty
page. -/
theorem direct_store_failure_result_equals_genuine_absence_witness :
    clientFail.query (emailQueryInput "alice@example.com" "troggle_user") =
      Except.error "connection timeout" ∧
    (clientOf emptyPage).query (emailQueryInput "alice@example.com" "troggle_user") =
      Except.ok emptyPage ∧
    ((Direct.UserExists "alice@example.com" clientFail "troggle_user").1 =
      (false, "User does not exist") ∧
     (Direct.UserExists "alice@example.com" (clientOf emptyPage) "troggle_user").1 =
      (false, "User does not exist") ∧
     (Direct.UserExists "alice@example.com" clientFail "troggle_user").1 =
      (Direct.UserExists "alice@example.com" (clientOf emptyPage) "troggle_user").1) :=
  ⟨rfl, rfl, direct_store_failure_result_equals_genuine_absence
    "alice@example.com" "troggle_user" clientFail (clientOf emptyPage)
    "connection timeout" emptyPage rfl rfl rfl⟩

/-- C2 (amended): for every payload that is not syntactically valid
JSON, or whose top-level value is neither an object nor the JSON
literal null, both handlers return statusCode 400 with exists false and
message Invalid request, and no store query is attempted.  (The
original claim also covered a top-level null, but the Go decoder
accepts null without error, see the counterexample.) -/
theorem non_object_payload_rejected_without_store_call
    (env : AwsEnv) (payload : Option Json)
    (h : payload = none ∨
      ∃ j, payload = some j ∧ j ≠ Json.null ∧ ∀ fs, j ≠ Json.obj fs) :
    (Gateway.handler env payload).1 =
      { statusCode := 400, body := "Invalid request" } ∧
    (Gateway.handler env payload).2.2 = [] ∧
    (Direct.handler env payload).1 =
      { statusCode := 400, «exists» := false, message := "Invalid request" } ∧
    (Direct.handler env payload).2.2 = [] := by
  have hdec : ∃ e, unmarshalRequest payload = Except.error e := by
    rcases h with rfl | ⟨j, rfl, hnull, hobj⟩
    · exact ⟨_, rfl⟩
    · cases j with
      | null => exact absurd rfl hnull
      | obj fs => exact absurd rfl (hobj fs)
      | bool b => exact ⟨_, rfl⟩
      | num n => exact ⟨_, rfl⟩
      | str s => exact ⟨_, rfl⟩
      | arr elems => exact ⟨_, rfl⟩
  obtain ⟨e, he⟩ := hdec
  refine ⟨?_, ?_, ?_, ?_⟩ <;> simp [Gateway.handler, Direct.handler, he]

/-- Witness for C2 (amended) at a concrete syntactically invalid
payload. -/
theorem non_object_payload_rejected_without_store_call_witness :
    (Gateway.handler (envOk pageWithItem) none).1 =
      { statusCode := 400, body := "Invalid request" } ∧
    (Gateway.handler (envOk pageWithItem) none).2.2 = [] ∧
    (Direct.handler (envOk pageWithItem) none).1 =
      { statusCode := 400, «exists» := false, message := "Invalid request" } ∧
    (Direct.handler (envOk pageWithItem) none).2.2 = [] :=
  non_object_payload_rejected_without_store_call (envOk pageWithItem) none
    (Or.inl rfl)

/-- C2 counterexample: a top-level JSON null is syntactically valid
JSON whose top-level value is not an object, yet both handlers return
statusCode 200 (not 400) and one store query IS attempted, because the
Go json decoder accepts a null into a struct without error and leaves
the email empty. -/
theorem null_payload_reaches_store_with_status_200 :
    (Direct.handler (envOk pageWithItem) (some Json.null)).1.statusCode = 200 ∧
    (Direct.handler (envOk pageWithItem) (some Json.null)).2.2 =
      [StoreOp.queryOp (emailQueryInput "" "troggle_user")] ∧
    (Gateway.handler (envOk pageWithItem) (some Json.null)).1.statusCode = 200 ∧
    (Gateway.handler (envOk pageWithItem) (some Json.null)).2.2 =
      [StoreOp.queryOp (emailQueryInput "" "troggle_user")] :=
  ⟨rfl, rfl, rfl, rfl⟩

/-- C3 (amended): decode and initialization failures always produce a
normal 400 or 500 response value; the gateway-proxy handler returns it
with a nil error, but the direct-return handler returns the 400/500
response together with the NON-nil decode or config error, so in that
variant the failure is surfaced to the invocation runtime as an
error. -/
theorem error_component_nil_in_gateway_non_nil_in_direct
    (env1 env2 : AwsEnv) (p1 p2 : Option Json) (e : String)
    (req : Request) (ec : String)
    (h1 : unmarshalRequest p1 = Except.error e)
    (h2 : unmarshalRequest p2 = Except.ok req)
    (h3 : env2.loadDefaultConfig = Except.error ec) :
    (Gateway.handler env1 p1).2.1 = none ∧
    (Gateway.handler env1 p1).1.statusCode = 400 ∧
    (Gateway.handler env2 p2).2.1 = none ∧
    (Gateway.handler env2 p2).1.statusCode = 500 ∧
    (Direct.handler env1 p1).2.1 = some e ∧
    (Direct.handler env1 p1).1.statusCode = 400 ∧
    (Direct.handler env2 p2).2.1 = some ec ∧
    (Direct.handler env2 p2).1.statusCode = 500 := by
  refine ⟨?_, ?_, ?_, ?_, ?_, ?_, ?_, ?_⟩ <;>
    simp [Gateway.handler, Direct.handler, h1, h2, h3]

/-- Witness for C3 (amended) at a concrete invalid payload and a
concrete failing configuration. -/
theorem error_component_nil_in_gateway_non_nil_in_direct_witness :
    unmarshalRequest none = Except.error "invalid character in JSON input" ∧
    unmarshalRequest alicePayload = Except.ok { email := "alice@example.com" } ∧
    envConfigFail.loadDefaultConfig = Except.error "no credential providers" ∧
    ((Gateway.handler (envOk emptyPage) none).2.1 = none ∧
     (Gateway.handler (envOk emptyPage) none).1.statusCode = 400 ∧
     (Gateway.handler envConfigFail alicePayload).2.1 = none ∧
     (Gateway.handler envConfigFail alicePayload).1.statusCode = 500 ∧
     (Direct.handler (envOk emptyPage) none).2.1 =
       some "invalid character in JSON input" ∧
     (Direct.handler (envOk emptyPage) none).1.statusCode = 400 ∧
     (Direct.handler envConfigFail alicePayload).2.1 =
       some "no credential providers" ∧
     (Direct.handler envConfigFail alicePayload).1.statusCode = 500) :=
  ⟨rfl, rfl, rfl,
   error_component_nil_in_gateway_non_nil_in_direct (envOk emptyPage) envConfigFail
     none alicePayload "invalid character in JSON input"
     { email := "alice@example.com" } "no credential providers" rfl rfl rfl⟩

/-- C3 counterexample: on a concrete decode failure, and on a concrete
config failure, the direct-return handler returns a non-nil error to
the invocation runtime alongside the 400/500 response, contradicting
the claim that the error returned is nil in both cases. -/
theorem direct_handler_returns_non_nil_error_on_failures :
    (Direct.handler (envOk emptyPage) none).1.statusCode = 400 ∧
    (Direct.handler (envOk emptyPage) none).2.1 ≠ none ∧
    (Direct.handler envConfigFail alicePayload).1.statusCode = 500 ∧
    (Direct.handler envConfigFail alicePayload).2.1 ≠ none := by
  refine ⟨rfl, ?_, rfl, ?_⟩ <;> decide

/-- C5: for every invocation in which loading the store client
configuration fails, both handlers return statusCode 500 with exists
false and message Server error, and no store query is issued. -/
theorem config_failure_yields_500_without_store_call
    (env : AwsEnv) (payload : Option Json) (req : Request) (e : String)
    (hdec : unmarshalRequest payload = Except.ok req)
    (hcfg : env.loadDefaultConfig = Except.error e) :
    (Gateway.handler env payload).1 =
      { statusCode := 500, body := "Server error" } ∧
    (Gateway.handler env payload).2.2 = [] ∧
    (Direct.handler env payload).1 =
      { statusCode := 500, «exists» := false, message := "Server error" } ∧
    (Direct.handler env payload).2.2 = [] := by
  refine ⟨?_, ?_, ?_, ?_⟩ <;> simp [Gateway.handler, Direct.handler, hdec, hcfg]

/-- Witness for C5 at a concrete failing configuration. -/
theorem config_failure_yields_500_without_store_call_witness :
    unmarshalRequest alicePayload = Except.ok { email := "alice@example.com" } ∧
    envConfigFail.loadDefaultConfig = Except.error "no credential providers" ∧
    ((Gateway.handler envConfigFail alicePayload).1 =
      { statusCode := 500, body := "Server error" } ∧
     (Gateway.handler envConfigFail alicePayload).2.2 = [] ∧
     (Direct.handler envConfigFail alicePayload).1 =
      { statusCode := 500, «exists» := false, message := "Server error" } ∧
     (Direct.handler envConfigFail alicePayload).2.2 = []) :=
  ⟨rfl, rfl, config_failure_yields_500_without_store_call envConfigFail
    alicePayload { email := "alice@example.com" } "no credential providers"
    rfl rfl⟩

/-- C6: for every environment and every payload, every store operation
either handler performs is a query against the fixed table troggle_user
through the fixed index email-index; neither identifier is derived from
the request, so the handlers never look up any other table. -/
theorem all_store_ops_target_fixed_table_and_index
    (env : AwsEnv) (payload : Option Json) :
    ((Gateway.handler env payload).2.2).all StoreOp.targetsFixedTable = true ∧
    ((Direct.handler env payload).2.2).all StoreOp.targetsFixedTable = true := by
  constructor
  · rcases gateway_handler_trace env payload with h | ⟨email, h⟩ <;>
      simp [h, StoreOp.targetsFixedTable, emailQueryInput]
  · rcases direct_handler_trace env payload with h | ⟨email, h⟩ <;>
      simp [h, StoreOp.targetsFixedTable, emailQueryInput]

/-- C7: every payload that is a valid JSON object without an email
field decodes successfully to an empty-string email, and (when the
configuration loads) the store lookup proceeds, querying for the empty
string. -/
theorem missing_email_field_decodes_to_empty_and_lookup_proceeds
    (fields : List (String × Json)) (env : AwsEnv) (cfg : AwsConfig)
    (hnf : ∀ kv ∈ fields, kv.1 ≠ "email")
    (hcfg : env.loadDefaultConfig = Except.ok cfg) :
    unmarshalRequest (some (Json.obj fields)) = Except.ok { email := "" } ∧
    (Gateway.handler env (some (Json.obj fields))).2.2 =
      [StoreOp.queryOp (emailQueryInput "" "troggle_user")] ∧
    (Direct.handler env (some (Json.obj fields))).2.2 =
      [StoreOp.queryOp (emailQueryInput "" "troggle_user")] := by
  have hfold : ∀ gs : List (String × Json), (∀ kv ∈ gs, kv.1 ≠ "email") →
      ∀ acc : String × Bool, gs.foldl decodeFieldStep acc = acc := by
    intro gs
    induction gs with
    | nil => intro _ acc; rfl
    | cons kv rest ih =>
      intro hg acc
      have h1 : kv.1 ≠ "email" := hg kv (List.mem_cons_self kv rest)
      have hstep : decodeFieldStep acc kv = acc := by
        simp [decodeFieldStep, h1]
      rw [List.foldl_cons, hstep]
      exact ih (fun x hx => hg x (List.mem_cons_of_mem kv hx)) acc
  have hdec : unmarshalRequest (some (Json.obj fields)) = Except.ok { email := "" } := by
    simp [unmarshalRequest, hfold fields hnf ("", false)]
  refine ⟨hdec, ?_, ?_⟩ <;>
    simp [Gateway.handler, Direct.handler, hdec, hcfg,
      gateway_userExists_trace, direct_userExists_trace]

/-- Witness for C7 at a concrete object payload with no email field. -/
theorem missing_email_field_decodes_to_empty_and_lookup_proceeds_witness :
    unmarshalRequest (some (Json.obj [("name", Json.str "Alice")])) =
      Except.ok { email := "" } ∧
    (Gateway.handler (envOk emptyPage) (some (Json.obj [("name", Json.str "Alice")]))).2.2 =
      [StoreOp.queryOp (emailQueryInput "" "troggle_user")] ∧
    (Direct.handler (envOk emptyPage) (some (Json.obj [("name", Json.str "Alice")]))).2.2 =
      [StoreOp.queryOp (emailQueryInput "" "troggle_user")] :=
  missing_email_field_decodes_to_empty_and_lookup_proceeds
    [("name", Json.str "Alice")] (envOk emptyPage) { region := "us-east-1" }
    (by decide) rfl

/-- C8: both handlers are pure functions of environment and payload, so
two invocations with the identical payload against the unchanged store
return identical responses; and every store operation performed is a
read, so an invocation leaves any store state unchanged. -/
theorem invocation_read_only_and_repeatable
    (env : AwsEnv) (payload : Option Json) (st : StoreState) :
    Gateway.handler env payload = Gateway.handler env payload ∧
    Direct.handler env payload = Direct.handler env payload ∧
    ((Gateway.handler env payload).2.2).all StoreOp.isRead = true ∧
    ((Direct.handler env payload).2.2).all StoreOp.isRead = true ∧
    ((Gateway.handler env payload).2.2).foldl applyStoreOp st = st ∧
    ((Direct.handler env payload).2.2).foldl applyStoreOp st = st := by
  refine ⟨rfl, rfl, ?_, ?_, ?_, ?_⟩
  · rcases gateway_handler_trace env payload with h | ⟨email, h⟩ <;>
      simp [h, StoreOp.isRead]
  · rcases direct_handler_trace env payload with h | ⟨email, h⟩ <;>
      simp [h, StoreOp.isRead]
  · rcases gateway_handler_trace env payload with h | ⟨email, h⟩ <;>
      simp [h, applyStoreOp]
  · rcases direct_handler_trace env payload with h | ⟨email, h⟩ <;>
      simp [h, applyStoreOp]

/-- C9: in the gateway-proxy variant, for every payload that fails to
decode, the body of the 400 response is exactly the plain string
Invalid request, which differs from the JSON object body produced for
either value of the exists flag, so the 400 response carries no exists
field. -/
theorem gateway_400_body_is_plain_string_not_json
    (env : AwsEnv) (payload : Option Json) (e : String)
    (h : unmarshalRequest payload = Except.error e) :
    (Gateway.handler env payload).1.statusCode = 400 ∧
    (Gateway.handler env payload).1.body = "Invalid request" ∧
    Gateway.marshalResponse true ≠ "Invalid request" ∧
    Gateway.marshalResponse false ≠ "Invalid request" := by
  refine ⟨?_, ?_, by decide, by decide⟩ <;> simp [Gateway.handler, h]

/-- Witness for C9 at a concrete syntactically invalid payload. -/
theorem gateway_400_body_is_plain_string_not_json_witness :
    unmarshalRequest none = Except.error "invalid character in JSON input" ∧
    ((Gateway.handler (envOk pageWithItem) none).1.statusCode = 400 ∧
     (Gateway.handler (envOk pageWithItem) none).1.body = "Invalid request" ∧
     Gateway.marshalResponse true ≠ "Invalid request" ∧
     Gateway.marshalResponse false ≠ "Invalid request") :=
  ⟨rfl, gateway_400_body_is_plain_string_not_json (envOk pageWithItem) none
    "invalid character in JSON input" rfl⟩

end Troggle
